import Mathlib

/-!
Verification of the pyrawr process-invocation layer (`src/pyrawr.py`).

The Python class `ThermoRawFileParser` is shallowly embedded below.  External
collaborators are modelled as parameters:

* `subprocess.run` becomes a `Runner : List String → Except String ProcessOutcome`
  (a `FileNotFoundError` launch failure is the `Except.error` case, carrying the
  exception text; otherwise the captured outcome is returned);
* the filesystem the external tool writes into becomes `Fs : String → Option String`
  (path ↦ file contents after the run);
* `tempfile.TemporaryDirectory()` becomes an explicit `tmp_dir : String` parameter;
* byte buffers (`stdout`/`stderr`) are modelled as `String`, so `.decode()` is the
  identity; `.strip()` is `pyStrip`.

Python exceptions escaping the methods are modelled by the `PyErr` sum type and
`Except`.  `os.path` helpers are re-implemented for POSIX paths.
-/

namespace Pyrawr

/-- Outcome of `subprocess.run(..., capture_output=True)`: `returncode`,
captured `stdout` and `stderr` (modelled as decoded text). -/
structure ProcessOutcome where
  returncode : Int
  stdout : String
  stderr : String
deriving DecidableEq, Repr

/-- The exceptions the Python code can raise or let escape:
the three `ThermoRawFileParser*Error` classes, plus the raw stdlib faults that
escape unhandled (`json.JSONDecodeError`, `FileNotFoundError` from `open`, and
`KeyError` from the format-dictionary lookup). -/
inductive PyErr where
  | installationError (msg : String)
  | runError (msg : String)
  | jsonDecodeError (msg : String)
  | fileNotFoundError (path : String)
  | keyError (key : String)
deriving DecidableEq, Repr

/-- Model of `subprocess.run`: maps a command vector either to a launch failure
(`FileNotFoundError` text) or to a captured process outcome. -/
def Runner : Type := List String → Except String ProcessOutcome

/-- Model of the filesystem state after the external process ran: maps a path to
the contents of the file there, or `none` if no such file exists. -/
def Fs : Type := String → Option String

/-! ### Executable string primitives

Core `String` functions such as `splitOn`, `trim`, `toLower` and `toNat?` are
implemented on byte positions and do not reduce inside the kernel, so the
Python string methods the source uses are re-implemented here on the
underlying character list; closed theorems then evaluate by `rfl`. -/

/-- Split a character list at every occurrence of `sep` (auxiliary for
`pySplit`); always returns at least one piece. -/
def splitOnCharAux (sep : Char) : List Char → List Char → List (List Char)
  | acc, [] => [acc.reverse]
  | acc, c :: cs =>
    if c = sep then acc.reverse :: splitOnCharAux sep [] cs
    else splitOnCharAux sep (c :: acc) cs

/-- Python `str.split(sep)` for a single-character separator (this is also the
behaviour of `str.splitOn` for the one-character separators the source uses):
`"a  b".split(" ") = ["a", "", "b"]`. -/
def pySplit (s : String) (sep : Char) : List String :=
  (splitOnCharAux sep [] s.data).map String.mk

/-- The whitespace characters Python `str.strip()` removes. -/
def isPyWs (c : Char) : Bool :=
  c = ' ' ∨ c = '\t' ∨ c = '\n' ∨ c = '\r' ∨ c = '\x0b' ∨ c = '\x0c'

/-- Python `str.strip()` with no argument: remove leading and trailing
whitespace. -/
def pyStrip (s : String) : String :=
  String.mk (((s.data.dropWhile isPyWs).reverse.dropWhile isPyWs).reverse)

/-- Lower-case one character (ASCII range, which covers the format names). -/
def pyCharLower (c : Char) : Char :=
  if 'A' ≤ c ∧ c ≤ 'Z' then Char.ofNat (c.toNat + 32) else c

/-- Python `str.lower()`. -/
def pyLower (s : String) : String := String.mk (s.data.map pyCharLower)

/-- Does the first list start with the second. -/
def charsStartWith : List Char → List Char → Bool
  | _, [] => true
  | [], _ :: _ => false
  | c :: cs, p :: ps => c = p ∧ charsStartWith cs ps

/-- Python `str.startswith`. -/
def pyStartsWith (s pre : String) : Bool := charsStartWith s.data pre.data

/-- Python `str.endswith`. -/
def pyEndsWith (s post : String) : Bool :=
  charsStartWith s.data.reverse post.data.reverse

/-- Parse a non-empty all-digit character list as a natural number. -/
def digitsToNat (cs : List Char) : Option Nat :=
  if ¬ cs = [] ∧ cs.all Char.isDigit then
    some (cs.foldl (fun n c => 10 * n + (c.toNat - '0'.toNat)) 0)
  else none

/-- `String.toNat?` on the character list. -/
def pyToNat (s : String) : Option Nat := digitsToNat s.data

/-- Drop the first `n` characters of a string. -/
def strDrop (s : String) (n : Nat) : String := String.mk (s.data.drop n)

/-! ### POSIX path helpers (`os.path`) -/

/-- Collapse `..` components of an already-rooted path (auxiliary for
`normAbs`): components are pushed onto a reversed accumulator, and `..` pops
the most recent one (at the root, `..` is dropped, as `posixpath.normpath`
does for absolute paths). -/
def collapseDots (comps : List String) : List String :=
  (comps.foldl (fun acc c => if c = ".." then acc.drop 1 else c :: acc) []).reverse

/-- Normalise a path taken as absolute: split on `/`, drop empty and `.`
components, collapse `..`, and re-root.  Models `posixpath.normpath` on
absolute inputs (the double-leading-slash corner case is not modelled). -/
def normAbs (p : String) : String :=
  let comps := (pySplit p '/').filter (fun c => ¬ c = "" ∧ ¬ c = ".")
  "/" ++ String.intercalate "/" (collapseDots comps)

/-- Model of `os.path.abspath` with the process working directory `cwd` made
explicit: an already-absolute path is normalised, a relative one is joined to
`cwd` first. -/
def abspath (cwd p : String) : String :=
  if pyStartsWith p "/" then normAbs p else normAbs (cwd ++ "/" ++ p)

/-- Model of `posixpath.dirname`: everything up to (and excluding) the last
`/`, with trailing slashes stripped unless the head is all slashes. -/
def dirname (p : String) : String :=
  let cs := p.toList
  let i := (List.range cs.length).foldl
    (fun acc j => if cs.get? j = some '/' then j + 1 else acc) 0
  let head := cs.take i
  if head ≠ [] ∧ head.any (fun c => c ≠ '/') then
    String.mk ((head.reverse.dropWhile (fun c => c = '/')).reverse)
  else
    String.mk head

/-- Model of `os.path.join` for the two-argument uses in the source. -/
def pathJoin (a b : String) : String :=
  if pyStartsWith b "/" then b
  else if a = "" ∨ pyEndsWith a "/" then a ++ b
  else a ++ "/" ++ b

/-! ### Python `repr` of a command list (as interpolated into the `RunError`
message by the f-string `f"Error running command {cmd}:..."`). -/

/-- `repr` of a Python `str`, restricted to strings containing no quote or
escape characters (all strings the source interpolates are of this shape). -/
def pyStrRepr (s : String) : String := "'" ++ s ++ "'"

/-- `str`/`repr` of a Python list of strings: `['a', 'b']`. -/
def pyListRepr (l : List String) : String :=
  "[" ++ String.intercalate ", " (l.map pyStrRepr) ++ "]"

/-! ### The handle (`ThermoRawFileParser` instance attributes) -/

/-- The attributes of a `ThermoRawFileParser` instance. -/
structure Handle where
  executable : String
  docker_image : Option String
  version_requirement : String
  installed_version : Option String
deriving DecidableEq, Repr

/-- The attribute assignments performed by `__init__` before validation runs. -/
def mkHandle (executable : String) (docker_image : Option String) : Handle :=
  { executable := executable
    docker_image := docker_image
    version_requirement := ">=1.3.3"
    installed_version := none }

/-! ### `_run_command` -/

/-- The command vector construction inside `_run_command`: with a Docker image
configured, `docker run`, one `-v f:f` pair per element of the (deduplicated)
set of parent directories of the absolute paths of `files`, the image, the
executable split on single spaces, then the options; without, the executable
as a single token followed by the options.  Python's `set` iteration order is
arbitrary; it is modelled as first-occurrence order (`List.dedup`). -/
def buildCmd (cwd : String) (h : Handle) (options : List String)
    (files : List String) : List String :=
  match h.docker_image with
  | some img =>
    let file_paths := (files.map (abspath cwd)).dedup
    let file_paths := (file_paths.map dirname).dedup
    let docker_args := file_paths.flatMap (fun f => ["-v", f ++ ":" ++ f])
    ["docker", "run"] ++ docker_args ++ [img] ++ pySplit h.executable ' ' ++ options
  | none => [h.executable] ++ options

/-- `_run_command(options, files, check)`: build the command, launch it through
`runner`; a launch failure is re-raised as `InstallationError`; with `check`
set, a non-zero return code raises `RunError` with the command and stderr;
otherwise the raw outcome is returned.  (`options` elements are already
strings, so the `str(o)` coercion is the identity.) -/
def run_command (cwd : String) (h : Handle) (runner : Runner)
    (options : List String) (files : List String) (check : Bool) :
    Except PyErr ProcessOutcome :=
  let cmd := buildCmd cwd h options files
  match runner cmd with
  | .error e => .error (.installationError e)
  | .ok cmd_out =>
    if check ∧ ¬ cmd_out.returncode = 0 then
      .error (.runError
        ("Error running command " ++ pyListRepr cmd ++ ":\n" ++ cmd_out.stderr))
    else
      .ok cmd_out

/-! ### JSON decoding (`json.load` / `json.loads`)

The stdlib decoder is modelled by a strict recursive-descent parser producing a
`Json` tree.  Numbers are kept as their lexemes (no floating-point semantics is
needed by any claim); error messages reuse the stdlib's phrasing ("Expecting
value", "Extra data", ...). -/

/-- A parsed JSON value; numbers are kept as their source lexemes. -/
inductive Json where
  | null : Json
  | bool (b : Bool) : Json
  | num (lexeme : String) : Json
  | str (s : String) : Json
  | arr (xs : List Json) : Json
  | obj (kvs : List (String × Json)) : Json

/-- JSON insignificant whitespace. -/
def isJsonWs (c : Char) : Bool :=
  c = ' ' ∨ c = '\n' ∨ c = '\t' ∨ c = '\r'

/-- Drop leading JSON whitespace. -/
def skipWs : List Char → List Char
  | [] => []
  | c :: cs => if isJsonWs c then skipWs cs else c :: cs

/-- Value of a hexadecimal digit. -/
def hexVal (c : Char) : Option Nat :=
  if '0' ≤ c ∧ c ≤ '9' then some (c.toNat - '0'.toNat)
  else if 'a' ≤ c ∧ c ≤ 'f' then some (c.toNat - 'a'.toNat + 10)
  else if 'A' ≤ c ∧ c ≤ 'F' then some (c.toNat - 'A'.toNat + 10)
  else none

/-- Parse the body of a JSON string (the opening quote already consumed). -/
def parseStringAux : Nat → List Char → List Char → Except String (String × List Char)
  | 0, _, _ => .error "Unterminated string"
  | _ + 1, _, [] => .error "Unterminated string"
  | fuel + 1, acc, c :: cs =>
    if c = '"' then .ok (String.mk acc.reverse, cs)
    else if c = '\\' then
      match cs with
      | [] => .error "Unterminated string"
      | e :: cs' =>
        if e = '"' then parseStringAux fuel ('"' :: acc) cs'
        else if e = '\\' then parseStringAux fuel ('\\' :: acc) cs'
        else if e = '/' then parseStringAux fuel ('/' :: acc) cs'
        else if e = 'n' then parseStringAux fuel ('\n' :: acc) cs'
        else if e = 't' then parseStringAux fuel ('\t' :: acc) cs'
        else if e = 'r' then parseStringAux fuel ('\r' :: acc) cs'
        else if e = 'b' then parseStringAux fuel ('\x08' :: acc) cs'
        else if e = 'f' then parseStringAux fuel ('\x0c' :: acc) cs'
        else if e = 'u' then
          match cs' with
          | h1 :: h2 :: h3 :: h4 :: cs'' =>
            match hexVal h1, hexVal h2, hexVal h3, hexVal h4 with
            | some a, some b, some c2, some d =>
              let n := ((a * 16 + b) * 16 + c2) * 16 + d
              parseStringAux fuel (Char.ofNat n :: acc) cs''
            | _, _, _, _ => .error "Invalid \\uXXXX escape"
          | _ => .error "Invalid \\uXXXX escape"
        else .error "Invalid \\escape"
    else parseStringAux fuel (c :: acc) cs

/-- Take a maximal run of decimal digits. -/
def takeDigits (cs : List Char) : List Char × List Char :=
  (cs.takeWhile Char.isDigit, cs.dropWhile Char.isDigit)

/-- Parse a JSON number lexeme: optional `-`, digits, optional fraction,
optional exponent. -/
def parseNumber (cs : List Char) : Except String (String × List Char) :=
  let (sign, cs1) :=
    match cs with
    | '-' :: rest => (['-'], rest)
    | _ => (([] : List Char), cs)
  let (intPart, cs2) := takeDigits cs1
  if intPart = [] then .error "Expecting value"
  else
    let (fracPart, cs3) :=
      match cs2 with
      | '.' :: rest =>
        let (ds, rest') := takeDigits rest
        if ds = [] then (([] : List Char), cs2) else ('.' :: ds, rest')
      | _ => (([] : List Char), cs2)
    let (expPart, cs4) :=
      match cs3 with
      | e :: rest =>
        if e = 'e' ∨ e = 'E' then
          match rest with
          | s :: rest' =>
            if s = '+' ∨ s = '-' then
              let (ds, rest'') := takeDigits rest'
              if ds = [] then (([] : List Char), cs3) else (e :: s :: ds, rest'')
            else
              let (ds, rest'') := takeDigits rest
              if ds = [] then (([] : List Char), cs3) else (e :: ds, rest'')
          | [] => (([] : List Char), cs3)
        else (([] : List Char), cs3)
      | [] => (([] : List Char), cs3)
    .ok (String.mk (sign ++ intPart ++ fracPart ++ expPart), cs4)

mutual

/-- Parse one JSON value from the input. -/
def parseValue : Nat → List Char → Except String (Json × List Char)
  | 0, _ => .error "Recursion limit exceeded"
  | fuel + 1, input =>
    match skipWs input with
    | [] => .error "Expecting value"
    | c :: cs =>
      if c = '"' then
        match parseStringAux (cs.length + 1) [] cs with
        | .error e => .error e
        | .ok (s, rest) => .ok (.str s, rest)
      else if c = '[' then
        match skipWs cs with
        | ']' :: rest => .ok (.arr [], rest)
        | _ => parseArrItems fuel [] cs
      else if c = '{' then
        match skipWs cs with
        | '}' :: rest => .ok (.obj [], rest)
        | _ => parseObjItems fuel [] cs
      else if c = 't' then
        match cs with
        | 'r' :: 'u' :: 'e' :: rest => .ok (.bool true, rest)
        | _ => .error "Expecting value"
      else if c = 'f' then
        match cs with
        | 'a' :: 'l' :: 's' :: 'e' :: rest => .ok (.bool false, rest)
        | _ => .error "Expecting value"
      else if c = 'n' then
        match cs with
        | 'u' :: 'l' :: 'l' :: rest => .ok (.null, rest)
        | _ => .error "Expecting value"
      else if c = '-' ∨ c.isDigit then
        match parseNumber (c :: cs) with
        | .error e => .error e
        | .ok (lx, rest) => .ok (.num lx, rest)
      else .error "Expecting value"

/-- Parse the comma-separated items of an array (input points just after the
`[` or after a `,`). -/
def parseArrItems : Nat → List Json → List Char → Except String (Json × List Char)
  | 0, _, _ => .error "Recursion limit exceeded"
  | fuel + 1, acc, input =>
    match parseValue fuel input with
    | .error e => .error e
    | .ok (v, rest) =>
      match skipWs rest with
      | ',' :: rest' => parseArrItems fuel (v :: acc) rest'
      | ']' :: rest' => .ok (.arr (v :: acc).reverse, rest')
      | _ => .error "Expecting delimiter"

/-- Parse the comma-separated members of an object (input points just after
the `{` or after a `,`). -/
def parseObjItems : Nat → List (String × Json) → List Char →
    Except String (Json × List Char)
  | 0, _, _ => .error "Recursion limit exceeded"
  | fuel + 1, acc, input =>
    match skipWs input with
    | '"' :: cs =>
      match parseStringAux (cs.length + 1) [] cs with
      | .error e => .error e
      | .ok (k, rest) =>
        match skipWs rest with
        | ':' :: rest' =>
          match parseValue fuel rest' with
          | .error e => .error e
          | .ok (v, rest'') =>
            match skipWs rest'' with
            | ',' :: rest3 => parseObjItems fuel ((k, v) :: acc) rest3
            | '}' :: rest3 => .ok (.obj ((k, v) :: acc).reverse, rest3)
            | _ => .error "Expecting delimiter"
        | _ => .error "Expecting colon"
    | _ => .error "Expecting property name"

end

/-- `json.loads`: parse a complete JSON document, rejecting trailing data. -/
def jsonLoads (s : String) : Except String Json :=
  match parseValue (2 * s.length + 2) s.toList with
  | .error e => .error e
  | .ok (v, rest) =>
    if skipWs rest = [] then .ok v else .error "Extra data"

/-! ### The four operations -/

/-- The format-name → format-code dictionary local to `parse`. -/
def formats : List (String × String) :=
  [("mgf", "0"), ("mzml", "1"), ("indexed_mzml", "2"),
   ("parquet", "3"), ("scan_info", "4")]

/-- `formats[key]`: a missing key raises a raw `KeyError`. -/
def formatsLookup (key : String) : Except PyErr String :=
  match formats.lookup key with
  | some code => .ok code
  | none => .error (.keyError key)

/-- The `-f code` portion of the `parse` argument vector: present only if a
(truthy) format name was given, looked up after lowercasing; a bad name is the
raw `KeyError`. -/
def parseFormatPart (output_format : Option String) : Except PyErr (List String) :=
  match output_format with
  | some s =>
    if ¬ s = "" then
      match formatsLookup (pyLower s) with
      | .error e => .error e
      | .ok code => .ok ["-f", code]
    else .ok []
  | none => .ok []

/-- The argument-vector construction in `parse`: `-i` with the absolute input
path; `-f code` only if a (truthy) format name was given; caller options
appended verbatim if truthy. -/
def parseCmdOptions (cwd : String) (input_file : String)
    (output_format : Option String) (options : List String) :
    Except PyErr (List String) :=
  match parseFormatPart output_format with
  | .error e => .error e
  | .ok fmtArgs =>
    let cmd_options := ["-i", abspath cwd input_file] ++ fmtArgs
    .ok (if ¬ options = [] then cmd_options ++ options else cmd_options)

/-- `parse(input_file, output_format, options)`: build the options (a bad
format name raises `KeyError` here, before any process is launched), then run
the command with the absolute input path as the file set, discarding the
outcome. -/
def parse (cwd : String) (h : Handle) (runner : Runner) (input_file : String)
    (output_format : Option String) (options : List String) :
    Except PyErr Unit :=
  match parseCmdOptions cwd input_file output_format options with
  | .error e => .error e
  | .ok cmd_options =>
    match run_command cwd h runner cmd_options [abspath cwd input_file] true with
    | .error e => .error e
    | .ok _ => .ok ()

/-- The argument vector built by `metadata` for temporary directory `tmp_dir`. -/
def metadataCmdOptions (cwd : String) (tmp_dir : String) (input_file : String) :
    List String :=
  ["-i", abspath cwd input_file, "-c", pathJoin tmp_dir "meta.json", "-m", "0"]

/-- `metadata(input_file)`: run the tool with `-m 0` and an output file inside
a fresh temporary directory, then open and JSON-parse that file; a missing
file raises `FileNotFoundError` from `open`, malformed contents raise
`json.JSONDecodeError`. -/
def metadata (cwd : String) (h : Handle) (runner : Runner) (fs : Fs)
    (tmp_dir : String) (input_file : String) : Except PyErr Json :=
  let output_file := pathJoin tmp_dir "meta.json"
  let cmd_options := metadataCmdOptions cwd tmp_dir input_file
  match run_command cwd h runner cmd_options [abspath cwd input_file, output_file]
      true with
  | .error e => .error e
  | .ok _ =>
    match fs output_file with
    | none => .error (.fileNotFoundError output_file)
    | some contents =>
      match jsonLoads contents with
      | .error e => .error (.jsonDecodeError e)
      | .ok v => .ok v

/-- The argument vector built by `query`. -/
def queryCmdOptions (cwd : String) (input_file : String) (scans : String)
    (options : List String) : List String :=
  let cmd_options := ["query", "-i", abspath cwd input_file, "-n", scans, "-s"]
  if ¬ options = [] then cmd_options ++ options else cmd_options

/-- `query(input_file, scans, options)`: run the query sub-command, then parse
the decoded, stripped stdout as JSON; malformed stdout raises
`json.JSONDecodeError`. -/
def query (cwd : String) (h : Handle) (runner : Runner) (input_file : String)
    (scans : String) (options : List String) : Except PyErr Json :=
  let cmd_options := queryCmdOptions cwd input_file scans options
  match run_command cwd h runner cmd_options [abspath cwd input_file] true with
  | .error e => .error e
  | .ok cmd_out =>
    match jsonLoads (pyStrip cmd_out.stdout) with
    | .error e => .error (.jsonDecodeError e)
    | .ok v => .ok v

/-- The argument vector built by `xic` for temporary directory `tmp_dir`. -/
def xicCmdOptions (cwd : String) (tmp_dir : String) (input_file : String)
    (base64 : Bool) : List String :=
  let cmd_options :=
    ["xic", "-i", abspath cwd input_file, "-j", pathJoin tmp_dir "query.json", "-s"]
  if base64 then cmd_options ++ ["--base64"] else cmd_options

/-- `xic(input_file, query, base64)`: the caller's query list is serialised to
`query.json` in a fresh temporary directory (a filesystem side effect outside
this model; the file participates only through its path), the xic sub-command
is run, and the decoded, stripped stdout is parsed as JSON. -/
def xic (cwd : String) (h : Handle) (runner : Runner) (tmp_dir : String)
    (input_file : String) (base64 : Bool) : Except PyErr Json :=
  let query_file := pathJoin tmp_dir "query.json"
  let cmd_options := xicCmdOptions cwd tmp_dir input_file base64
  match run_command cwd h runner cmd_options [abspath cwd input_file, query_file]
      true with
  | .error e => .error e
  | .ok cmd_out =>
    match jsonLoads (pyStrip cmd_out.stdout) with
    | .error e => .error (.jsonDecodeError e)
    | .ok v => .ok v

/-! ### Version validation (`_validate_install`, `__init__`) -/

/-- Parse a dotted `major.minor.patch` version string. -/
def parseVer (s : String) : Option (Nat × Nat × Nat) :=
  match pySplit s '.' with
  | [a, b, c] =>
    match pyToNat a, pyToNat b, pyToNat c with
    | some x, some y, some z => some (x, y, z)
    | _, _, _ => none
  | _ => none

/-- Lexicographic comparison of version triples. -/
def verLe (a b : Nat × Nat × Nat) : Bool :=
  decide (a.1 < b.1 ∨ (a.1 = b.1 ∧
    (a.2.1 < b.2.1 ∨ (a.2.1 = b.2.1 ∧ a.2.2 ≤ b.2.2))))

/-- Modelled from the spec: the external semantic-version comparator
(`semver.match`), an external collaborator "consumed only as a predicate",
restricted to the `>=` constraints the source uses. -/
def semverMatch (version req : String) : Bool :=
  if pyStartsWith req ">=" then
    match parseVer version, parseVer (strDrop req 2) with
    | some v, some r => verLe r v
    | _, _ => false
  else
    false

/-- `_validate_install`: probe the tool with `--version` through `_run_command`
(with its default `check=True`), then — in the branch where that returned —
re-check the return code, store the trimmed stdout as `installed_version`, and
range-check it.  Returns the handle as mutated so far together with the
outcome, so that the state of `installed_version` at the point an exception
escapes is observable. -/
def validate_install (cwd : String) (h : Handle) (runner : Runner) :
    Handle × Except PyErr Unit :=
  match run_command cwd h runner ["--version"] [] true with
  | .error e => (h, .error e)
  | .ok cmd_out =>
    if ¬ cmd_out.returncode = 0 then
      (h, .error (.installationError (pyStrip cmd_out.stderr)))
    else
      let h := { h with installed_version := some (pyStrip cmd_out.stdout) }
      if ¬ semverMatch (pyStrip cmd_out.stdout) h.version_requirement then
        (h, .error (.installationError
          ("Installed version " ++ pyStrip cmd_out.stdout
            ++ " does not match requirement " ++ h.version_requirement)))
      else
        (h, .ok ())

/-- `__init__`: set the attributes, then validate the installation; a validation
failure propagates as the constructor's exception. -/
def init (cwd : String) (executable : String) (docker_image : Option String)
    (runner : Runner) : Except PyErr Handle :=
  match validate_install cwd (mkHandle executable docker_image) runner with
  | (h, .ok ()) => .ok h
  | (_, .error e) => .error e

/-! ## Concrete runners used by the closed evaluation theorems -/

/-- A version probe that starts but exits with return code 1 and stderr text
`probe stderr text`. -/
def probeFailRunner : Runner := fun _ => .ok ⟨1, "", "probe stderr text"⟩

/-- A version probe that succeeds and reports `1.3.2` on stdout. -/
def probe132Runner : Runner := fun _ => .ok ⟨0, "1.3.2\n", ""⟩

/-- A version probe that succeeds and reports `1.3.3` on stdout. -/
def probe133Runner : Runner := fun _ => .ok ⟨0, "1.3.3\n", ""⟩

/-- A version probe that succeeds and reports `0.9.0` on stdout. -/
def probe090Runner : Runner := fun _ => .ok ⟨0, "0.9.0\n", ""⟩

/-- A run that completes with return code 3 and captured output. -/
def nonzeroRunner : Runner := fun _ => .ok ⟨3, "some stdout", "some stderr"⟩

/-- A launch that fails because the command does not exist. -/
def launchFailRunner : Runner :=
  fun _ => .error "[Errno 2] No such file or directory: 'nonexistent'"

/-- A run that exits zero but emits non-JSON text on stdout. -/
def notJsonRunner : Runner := fun _ => .ok ⟨0, "not json", ""⟩

/-- A filesystem on which the external tool wrote no file at all. -/
def emptyFs : Fs := fun _ => none

/-- A filesystem on which every file holds non-JSON text. -/
def badJsonFs : Fs := fun _ => some "not json"

/-! ## Helper lemmas about the path model -/

/-- Every result of `abspath` begins with a slash. -/
theorem abspath_eq_slash_append (cwd p : String) :
    ∃ rest, abspath cwd p = "/" ++ rest := by
  unfold abspath normAbs
  split <;> exact ⟨_, rfl⟩

/-- A string of the form `"/" ++ rest` starts with `/`. -/
theorem pyStartsWith_slash_append (rest : String) :
    pyStartsWith ("/" ++ rest) "/" = true := by
  simp [pyStartsWith, charsStartWith, String.data_append]

/-! ## Claims -/

/-- C1: the claim says a version probe that starts but exits non-zero makes
the constructor fail with `InstallationError` carrying the probe's stderr.  In
the code, `_validate_install` calls `_run_command(["--version"])` with the
default `check=True`, so the non-zero return code already raises
`ThermoRawFileParserRunError` inside `_run_command`; the `InstallationError`
branch in `_validate_install` is unreachable.  Evaluating construction with a
probe that exits 1 with stderr `probe stderr text` yields a `RunError` whose
message is the `_run_command` format (command plus stderr), not an
`InstallationError` carrying the stderr text. -/
theorem c1_nonzero_probe_raises_run_error :
    init "/wd" "thermorawfileparser" none probeFailRunner
      = .error (.runError
          "Error running command ['thermorawfileparser', '--version']:\nprobe stderr text") :=
  rfl

/-- C2: the claim says the direct-mode command vector is the executable
template split into whitespace-separated tokens followed by the arguments.
The code only splits in the Docker branch (`self.executable.split(" ")`); the
direct branch is `[self.executable] + options`, keeping a multi-token template
such as the docstring's own example `mono ThermoRawFileParser.exe` as one
argv element.  First conjunct: direct mode with that template produces the
unsplit vector (the claim expects
`["mono", "ThermoRawFileParser.exe", "-i", "/data/f.raw"]`).  Second
conjunct: the containerized branch of the very same configuration does split
the template. -/
theorem c2_direct_mode_keeps_template_unsplit :
    buildCmd "/wd" (mkHandle "mono ThermoRawFileParser.exe" none)
        ["-i", "/data/f.raw"] ["/data/f.raw"]
      = ["mono ThermoRawFileParser.exe", "-i", "/data/f.raw"]
    ∧ buildCmd "/wd" (mkHandle "mono ThermoRawFileParser.exe" (some "img:1"))
        ["-i", "/data/f.raw"] ["/data/f.raw"]
      = ["docker", "run", "-v", "/data:/data", "img:1",
         "mono", "ThermoRawFileParser.exe", "-i", "/data/f.raw"] :=
  ⟨rfl, rfl⟩

/-- C6: with a successful probe reporting `1.3.2` (stdout trimmed), the
constructor fails with `InstallationError` naming both versions against the
`>=1.3.3` requirement; with a probe reporting `1.3.3`, construction succeeds
and the resulting handle stores `installed_version = "1.3.3"`. -/
theorem c6_version_gate :
    init "/wd" "thermorawfileparser" none probe132Runner
      = .error (.installationError
          "Installed version 1.3.2 does not match requirement >=1.3.3")
    ∧ init "/wd" "thermorawfileparser" none probe133Runner
      = .ok { executable := "thermorawfileparser", docker_image := none,
              version_requirement := ">=1.3.3",
              installed_version := some "1.3.3" } :=
  ⟨rfl, rfl⟩

/-- C4: with a container image configured, the full command is `docker run`,
the mount pairs, the image, the executable template split into tokens, then
the argument vector; the mount list consists of one `-v d:d` pair per
directory in a duplicate-free list whose members are exactly the parent
directories of the absolute paths of the files — no duplicates, no
extraneous mounts. -/
theorem c4_container_mounts (cwd exe img vr : String) (iv : Option String)
    (options files : List String) :
    buildCmd cwd ⟨exe, some img, vr, iv⟩ options files
      = ["docker", "run"]
        ++ (((files.map (abspath cwd)).dedup.map dirname).dedup.flatMap
              (fun d => ["-v", d ++ ":" ++ d]))
        ++ [img] ++ pySplit exe ' ' ++ options
    ∧ ((files.map (abspath cwd)).dedup.map dirname).dedup.Nodup
    ∧ ∀ d, d ∈ ((files.map (abspath cwd)).dedup.map dirname).dedup
        ↔ ∃ f ∈ files, dirname (abspath cwd f) = d := by
  refine ⟨rfl, List.nodup_dedup _, fun d => ?_⟩
  simp only [List.mem_dedup, List.mem_map]
  constructor
  · rintro ⟨x, ⟨f, hf, rfl⟩, rfl⟩
    exact ⟨f, hf, rfl⟩
  · rintro ⟨f, hf, rfl⟩
    exact ⟨abspath cwd f, ⟨f, hf, rfl⟩, rfl⟩

/-- C4 witness: the containerized command for two files sharing a parent
directory plus a temporary output file carries exactly two mounts. -/
theorem c4_container_mounts_witness :
    buildCmd "/wd" ⟨"mono ThermoRawFileParser.exe", some "img:1", ">=1.3.3", none⟩
        ["-i", "/data/f.raw"] ["/data/f.raw", "/data/g.raw", "/tmp/t/meta.json"]
      = ["docker", "run", "-v", "/data:/data", "-v", "/tmp/t:/tmp/t", "img:1",
         "mono", "ThermoRawFileParser.exe", "-i", "/data/f.raw"] :=
  ((c4_container_mounts "/wd" "mono ThermoRawFileParser.exe" "img:1" ">=1.3.3" none
      ["-i", "/data/f.raw"] ["/data/f.raw", "/data/g.raw", "/tmp/t/meta.json"]).1).trans
    rfl

/-- C5: through `_run_command`, when the launcher returns an outcome with a
non-zero return code, strict checking (`check=True`) raises `RunError` whose
message is exactly the fixed format around the command's Python repr and the
captured stderr text (hence contains both); with `check=False` the raw
outcome is returned without raising. -/
theorem c5_strict_checking (cwd : String) (h : Handle) (runner : Runner)
    (options files : List String) (out : ProcessOutcome)
    (hrun : runner (buildCmd cwd h options files) = .ok out)
    (hrc : ¬ out.returncode = 0) :
    run_command cwd h runner options files true
      = .error (.runError ("Error running command "
          ++ pyListRepr (buildCmd cwd h options files) ++ ":\n" ++ out.stderr))
    ∧ run_command cwd h runner options files false = .ok out := by
  constructor <;> simp [run_command, hrun, hrc]

/-- C5 witness: a process exiting 3 with stderr `some stderr` raises the
`RunError` with the formatted message under strict checking and is returned
raw without it. -/
theorem c5_strict_checking_witness :
    run_command "/wd" (mkHandle "thermorawfileparser" none) nonzeroRunner
        ["-i", "/data/f.raw"] ["/data/f.raw"] true
      = .error (.runError ("Error running command "
          ++ pyListRepr (buildCmd "/wd" (mkHandle "thermorawfileparser" none)
              ["-i", "/data/f.raw"] ["/data/f.raw"]) ++ ":\n" ++ "some stderr"))
    ∧ run_command "/wd" (mkHandle "thermorawfileparser" none) nonzeroRunner
        ["-i", "/data/f.raw"] ["/data/f.raw"] false
      = .ok ⟨3, "some stdout", "some stderr"⟩ :=
  c5_strict_checking "/wd" (mkHandle "thermorawfileparser" none) nonzeroRunner
    ["-i", "/data/f.raw"] ["/data/f.raw"] ⟨3, "some stdout", "some stderr"⟩
    rfl (by decide)

/-- C8: if the launch mechanism itself cannot find the command
(`FileNotFoundError` from `subprocess.run`), construction raises
`InstallationError` wrapping the launch-failure text — for every
configuration and failure text, no raw fault escapes. -/
theorem c8_launch_failure_wrapped (cwd exe : String) (img : Option String)
    (runner : Runner) (msg : String)
    (hrun : runner (buildCmd cwd (mkHandle exe img) ["--version"] []) = .error msg) :
    init cwd exe img runner = .error (.installationError msg) := by
  simp [init, validate_install, run_command, hrun]

/-- C8 witness: constructing against a nonexistent command whose launch fails
with the `[Errno 2]` text yields `InstallationError` with that text. -/
theorem c8_launch_failure_wrapped_witness :
    init "/wd" "nonexistent" none launchFailRunner
      = .error (.installationError
          "[Errno 2] No such file or directory: 'nonexistent'") :=
  c8_launch_failure_wrapped "/wd" "nonexistent" none launchFailRunner
    "[Errno 2] No such file or directory: 'nonexistent'" rfl

/-- C9: when the probe succeeds with return code zero but the reported version
fails the requirement, `_validate_install` assigns `installed_version` (the
stripped stdout) before raising: the post-state handle stores the reported
version — not the initial `None` — alongside the `InstallationError`
outcome. -/
theorem c9_version_assigned_before_raise (cwd : String) (h : Handle)
    (runner : Runner) (out : ProcessOutcome)
    (hrun : runner (buildCmd cwd h ["--version"] []) = .ok out)
    (hrc : out.returncode = 0)
    (hver : semverMatch (pyStrip out.stdout) h.version_requirement = false) :
    validate_install cwd h runner
      = ({ h with installed_version := some (pyStrip out.stdout) },
         .error (.installationError ("Installed version " ++ pyStrip out.stdout
           ++ " does not match requirement " ++ h.version_requirement)))
    ∧ (validate_install cwd h runner).1.installed_version
        = some (pyStrip out.stdout) := by
  have h1 : validate_install cwd h runner
      = ({ h with installed_version := some (pyStrip out.stdout) },
         .error (.installationError ("Installed version " ++ pyStrip out.stdout
           ++ " does not match requirement " ++ h.version_requirement))) := by
    simp [validate_install, run_command, hrun, hrc, hver]
  exact ⟨h1, by rw [h1]⟩

/-- C9 witness: a probe reporting `0.9.0` (below the requirement) leaves the
reported version stored on the handle next to the raised error. -/
theorem c9_version_assigned_before_raise_witness :
    validate_install "/wd" (mkHandle "thermorawfileparser" none) probe090Runner
      = ({ mkHandle "thermorawfileparser" none with
            installed_version := some "0.9.0" },
         .error (.installationError
           "Installed version 0.9.0 does not match requirement >=1.3.3"))
    ∧ (validate_install "/wd" (mkHandle "thermorawfileparser" none)
        probe090Runner).1.installed_version = some "0.9.0" :=
  c9_version_assigned_before_raise "/wd" (mkHandle "thermorawfileparser" none)
    probe090Runner ⟨0, "0.9.0\n", ""⟩ rfl rfl rfl

/-- C3 counterexample: with the tool exiting zero yet emitting `not json` on
stdout, `query` raises the raw `json.JSONDecodeError` (message
`Expecting value`), not a `ThermoRawFileParserRunError` as the claim states;
likewise `metadata` with an absent output file raises the raw
`FileNotFoundError` for the missing path. -/
theorem c3_decode_failure_is_raw_fault :
    query "/wd" (mkHandle "thermorawfileparser" none) notJsonRunner
        "/data/f.raw" "508,680" []
      = .error (.jsonDecodeError "Expecting value")
    ∧ metadata "/wd" (mkHandle "thermorawfileparser" none) notJsonRunner
        emptyFs "/tmp/t" "/data/f.raw"
      = .error (.fileNotFoundError "/tmp/t/meta.json") :=
  ⟨rfl, rfl⟩

/-- C3 amended: when the external process exits zero, a decode failure — for
`metadata()` an absent or malformed-JSON temporary output file, and for
`query()`/`xic()` stdout that fails to parse as JSON after decoding and
stripping — is propagated to the caller (never silently swallowed), but as
the raw decode fault: `json.JSONDecodeError`, or `FileNotFoundError` for the
absent metadata file, not as a `RunError`. -/
theorem c3_decode_failure_propagated (cwd : String) (h : Handle)
    (runner : Runner) (tmp_dir f scans : String) (options : List String) :
    (∀ out e, runner (buildCmd cwd h (queryCmdOptions cwd f scans options)
        [abspath cwd f]) = .ok out → out.returncode = 0 →
      jsonLoads (pyStrip out.stdout) = .error e →
      query cwd h runner f scans options = .error (.jsonDecodeError e))
    ∧ (∀ b64 out e, runner (buildCmd cwd h (xicCmdOptions cwd tmp_dir f b64)
        [abspath cwd f, pathJoin tmp_dir "query.json"]) = .ok out →
      out.returncode = 0 →
      jsonLoads (pyStrip out.stdout) = .error e →
      xic cwd h runner tmp_dir f b64 = .error (.jsonDecodeError e))
    ∧ (∀ fs out, runner (buildCmd cwd h (metadataCmdOptions cwd tmp_dir f)
        [abspath cwd f, pathJoin tmp_dir "meta.json"]) = .ok out →
      out.returncode = 0 →
      fs (pathJoin tmp_dir "meta.json") = none →
      metadata cwd h runner fs tmp_dir f
        = .error (.fileNotFoundError (pathJoin tmp_dir "meta.json")))
    ∧ (∀ fs out contents e,
      runner (buildCmd cwd h (metadataCmdOptions cwd tmp_dir f)
        [abspath cwd f, pathJoin tmp_dir "meta.json"]) = .ok out →
      out.returncode = 0 →
      fs (pathJoin tmp_dir "meta.json") = some contents →
      jsonLoads contents = .error e →
      metadata cwd h runner fs tmp_dir f = .error (.jsonDecodeError e)) := by
  refine ⟨?_, ?_, ?_, ?_⟩
  · intro out e hrun hrc hjson
    simp [query, run_command, hrun, hrc, hjson]
  · intro b64 out e hrun hrc hjson
    simp [xic, run_command, hrun, hrc, hjson]
  · intro fs out hrun hrc hfs
    simp [metadata, run_command, hrun, hrc, hfs]
  · intro fs out contents e hrun hrc hfs hjson
    simp [metadata, run_command, hrun, hrc, hfs, hjson]

/-- C3 witness: the four propagation branches evaluated at concrete inputs:
non-JSON stdout for `query` and `xic`, a missing and a malformed metadata
file. -/
theorem c3_decode_failure_propagated_witness :
    query "/wd" (mkHandle "thermorawfileparser" none) notJsonRunner
        "/data/f.raw" "1-5" []
      = .error (.jsonDecodeError "Expecting value")
    ∧ xic "/wd" (mkHandle "thermorawfileparser" none) notJsonRunner "/tmp/t"
        "/data/f.raw" false
      = .error (.jsonDecodeError "Expecting value")
    ∧ metadata "/wd" (mkHandle "thermorawfileparser" none) notJsonRunner
        emptyFs "/tmp/u" "/data/f.raw"
      = .error (.fileNotFoundError "/tmp/u/meta.json")
    ∧ metadata "/wd" (mkHandle "thermorawfileparser" none) notJsonRunner
        badJsonFs "/tmp/u" "/data/f.raw"
      = .error (.jsonDecodeError "Expecting value") := by
  have hq := c3_decode_failure_propagated "/wd" (mkHandle "thermorawfileparser" none)
    notJsonRunner "/tmp/t" "/data/f.raw" "1-5" []
  have hm := c3_decode_failure_propagated "/wd" (mkHandle "thermorawfileparser" none)
    notJsonRunner "/tmp/u" "/data/f.raw" "1-5" []
  exact ⟨hq.1 ⟨0, "not json", ""⟩ "Expecting value" rfl rfl rfl,
         hq.2.1 false ⟨0, "not json", ""⟩ "Expecting value" rfl rfl rfl,
         hm.2.2.1 emptyFs ⟨0, "not json", ""⟩ rfl rfl rfl,
         hm.2.2.2 badJsonFs ⟨0, "not json", ""⟩ "not json" "Expecting value"
           rfl rfl rfl rfl⟩

/-- C7: for every operation, the generated argument vector contains the
absolute form of the input-file path (resolved against the working
directory); the absolute form begins with a slash, and when the given path is
relative it differs from the path as given, so the vector never carries the
relative original in its input-path slot. -/
theorem c7_absolute_input_paths (cwd f tmp_dir scans : String)
    (fmt : Option String) (options : List String) (b64 : Bool) :
    pyStartsWith (abspath cwd f) "/" = true
    ∧ (pyStartsWith f "/" = false → ¬ abspath cwd f = f)
    ∧ (∀ cmd, parseCmdOptions cwd f fmt options = .ok cmd → abspath cwd f ∈ cmd)
    ∧ abspath cwd f ∈ metadataCmdOptions cwd tmp_dir f
    ∧ abspath cwd f ∈ queryCmdOptions cwd f scans options
    ∧ abspath cwd f ∈ xicCmdOptions cwd tmp_dir f b64 := by
  obtain ⟨rest, habs⟩ := abspath_eq_slash_append cwd f
  have hslash : pyStartsWith (abspath cwd f) "/" = true := by
    rw [habs]; exact pyStartsWith_slash_append rest
  refine ⟨hslash, ?_, ?_, ?_, ?_, ?_⟩
  · intro hrel heq
    rw [heq] at hslash
    rw [hslash] at hrel
    cases hrel
  · intro cmd hcmd
    unfold parseCmdOptions at hcmd
    cases hfp : parseFormatPart fmt with
    | error e => rw [hfp] at hcmd; cases hcmd
    | ok fmtArgs =>
      rw [hfp] at hcmd
      simp only [Except.ok.injEq] at hcmd
      subst hcmd
      by_cases hop : options = [] <;> simp [hop]
  · simp [metadataCmdOptions]
  · by_cases hop : options = [] <;> simp [queryCmdOptions, hop]
  · cases b64 <;> simp [xicCmdOptions]

/-- C7 witness: the relative path `data/f.raw` resolved against `/wd` appears
in absolute form in each operation's argument vector and differs from the
relative original. -/
theorem c7_absolute_input_paths_witness :
    pyStartsWith (abspath "/wd" "data/f.raw") "/" = true
    ∧ ¬ abspath "/wd" "data/f.raw" = "data/f.raw"
    ∧ abspath "/wd" "data/f.raw" ∈ ["-i", "/wd/data/f.raw"]
    ∧ abspath "/wd" "data/f.raw" ∈ metadataCmdOptions "/wd" "/tmp/t" "data/f.raw"
    ∧ abspath "/wd" "data/f.raw" ∈ queryCmdOptions "/wd" "data/f.raw" "1-5" []
    ∧ abspath "/wd" "data/f.raw" ∈ xicCmdOptions "/wd" "/tmp/t" "data/f.raw" false := by
  have h := c7_absolute_input_paths "/wd" "data/f.raw" "/tmp/t" "1-5" none [] false
  exact ⟨h.1, h.2.1 rfl, h.2.2.1 ["-i", "/wd/data/f.raw"] rfl,
         h.2.2.2.1, h.2.2.2.2.1, h.2.2.2.2.2⟩

/-- C10: the five supported format names map to codes 0–4; `parse` lowercases
the given name before the lookup, so every casing of a supported name
produces the corresponding `-f code` pair; and for any other non-empty name
the raw `KeyError` (with the lowercased name) escapes for every runner
whatsoever — the lookup fault happens before any external process is
launched. -/
theorem c10_format_lookup (cwd f : String) (options : List String)
    (h : Handle) (s : String) :
    (formatsLookup "mgf" = .ok "0" ∧ formatsLookup "mzml" = .ok "1"
      ∧ formatsLookup "indexed_mzml" = .ok "2"
      ∧ formatsLookup "parquet" = .ok "3"
      ∧ formatsLookup "scan_info" = .ok "4")
    ∧ (∀ code, ¬ s = "" → formatsLookup (pyLower s) = .ok code →
        parseCmdOptions cwd f (some s) options
          = .ok (if ¬ options = [] then
                   ["-i", abspath cwd f, "-f", code] ++ options
                 else ["-i", abspath cwd f, "-f", code]))
    ∧ (¬ s = "" → formatsLookup (pyLower s) = .error (.keyError (pyLower s)) →
        ∀ runner, parse cwd h runner f (some s) options
          = .error (.keyError (pyLower s))) := by
  refine ⟨⟨rfl, rfl, rfl, rfl, rfl⟩, ?_, ?_⟩
  · intro code hne hcode
    simp [parseCmdOptions, parseFormatPart, hne, hcode]
  · intro hne hcode runner
    simp [parse, parseCmdOptions, parseFormatPart, hne, hcode]

/-- C10 witness: the casing `MGF` is accepted and maps to code `0`; the
unknown name `bogus` raises `KeyError` without the (failing) launcher ever
mattering. -/
theorem c10_format_lookup_witness :
    parseCmdOptions "/wd" "f.raw" (some "MGF") []
      = .ok ["-i", "/wd/f.raw", "-f", "0"]
    ∧ parse "/wd" (mkHandle "thermorawfileparser" none) launchFailRunner
        "f.raw" (some "bogus") []
      = .error (.keyError "bogus") := by
  have h1 := c10_format_lookup "/wd" "f.raw" []
    (mkHandle "thermorawfileparser" none) "MGF"
  have h2 := c10_format_lookup "/wd" "f.raw" []
    (mkHandle "thermorawfileparser" none) "bogus"
  exact ⟨(h1.2.1 "0" (by decide) rfl).trans rfl,
         h2.2.2 (by decide) rfl launchFailRunner⟩

end Pyrawr
